import Mathlib

/-!
Formal model of the HAI-Robot1 reactive behavior engine.

The definitions below are a shallow embedding of the Python sources
`robot/robot_brain.py` and `app/openai_agent.py`:

* pure helpers (`_clamp`, `_mood_from_lead`, `compute_dynamic_profile`, ...)
  become Lean functions over `ℚ` and `ℤ`;
* the randomized draws (`random.random()`, `random.uniform`, `random.choice`)
  become explicit oracle inputs (a rational draw value, a delay value, a
  choice index);
* the two concurrent loops (`game_loop`, `listen_loop`) become explicit
  step functions on state records, iterated over a list of tick/utterance
  inputs; shared globals become fields of the state records;
* external effects (WAMP calls, HTTP reset, the LLM) become emitted
  command values or oracle inputs.
-/

namespace HAIRobot

/-- The five mood strings produced by `_mood_from_lead` in
`robot/robot_brain.py` (`"winning_big"`, `"winning"`, `"close"`,
`"losing"`, `"losing_big"`). -/
inductive Mood where
  | winning_big
  | winning
  | close
  | losing
  | losing_big
deriving DecidableEq

/-- `_clamp(x, lo, hi) = max(lo, min(hi, x))` from `robot_brain.py`. -/
def _clamp (x lo hi : ℚ) : ℚ := max lo (min hi x)

/-- `_clamp01(x) = _clamp(x, 0.0, 1.0)` from `robot_brain.py`. -/
def _clamp01 (x : ℚ) : ℚ := _clamp x 0 1

/-- Baseline `MOVE_SPEAK_CHANCE = 0.33`. -/
def MOVE_SPEAK_CHANCE : ℚ := 33/100

/-- Baseline `BEHAVIOR_CHANCE = 0.18`. -/
def BEHAVIOR_CHANCE : ℚ := 18/100

/-- Baseline `SFX_CHANCE = 0.30`. -/
def SFX_CHANCE : ℚ := 30/100

/-- Baseline `WAIT_SFX_CHANCE = 0.20`. -/
def WAIT_SFX_CHANCE : ℚ := 20/100

/-- `SFX_COOLDOWN = 10.0` seconds. -/
def SFX_COOLDOWN : ℚ := 10

/-- `BEHAVIOR_COOLDOWN = 25.0` seconds. -/
def BEHAVIOR_COOLDOWN : ℚ := 25

/-- `TAG_BEHAVIOR_MAX_CHANCE = 0.12`. -/
def TAG_BEHAVIOR_MAX_CHANCE : ℚ := 12/100

/-- `BLOWOUT_LEAD = 6`. -/
def BLOWOUT_LEAD : ℤ := 6

/-- `_mood_from_lead(lead)` from `robot_brain.py`:
thresholds at `>= 6`, `>= 3`, `<= -6`, `<= -3`, else close. -/
def _mood_from_lead (lead : ℤ) : Mood :=
  if lead ≥ 6 then .winning_big
  else if lead ≥ 3 then .winning
  else if lead ≤ -6 then .losing_big
  else if lead ≤ -3 then .losing
  else .close

/-- The dynamic profile dict produced by `compute_dynamic_profile`. -/
structure DynamicProfile where
  mood : Mood
  lead : ℤ
  move_speak_chance : ℚ
  behavior_chance : ℚ
  sfx_chance : ℚ
  wait_sfx_chance : ℚ
deriving DecidableEq

/-- `compute_dynamic_profile(lead)` from `robot_brain.py`: normalizes the
lead by 6 into `[-1, 1]`, then nudges the four baseline probabilities and
clamps each into `[0, 1]`. -/
def compute_dynamic_profile (lead : ℤ) : DynamicProfile :=
  let mood := _mood_from_lead lead
  let adv : ℚ := _clamp ((lead : ℚ) / 6) (-1) 1
  let move_speak := _clamp01 (MOVE_SPEAK_CHANCE + (6/100) * adv)
  let behavior := _clamp01 (BEHAVIOR_CHANCE + (20/100) * max 0 adv - (10/100) * max 0 (-adv))
  let sfx := _clamp01 (SFX_CHANCE + (10/100) * |adv| + (if mood = Mood.close then (5/100 : ℚ) else 0))
  let wait_chance := _clamp01 (WAIT_SFX_CHANCE + (20/100) * max 0 (-adv) - (15/100) * max 0 adv)
  { mood := mood
    lead := lead
    move_speak_chance := move_speak
    behavior_chance := behavior
    sfx_chance := sfx
    wait_sfx_chance := wait_chance }

/-- Modelled from the spec: category thresholds as the spec states them
(`lead ≥ 6 → DominatingAgent/winning_big; 3 ≤ lead ≤ 5 → LeadingAgent/winning;
−5 ≤ lead ≤ −3 → LeadingHuman/losing; lead ≤ −6 → DominatingHuman/losing_big;
otherwise Close`), written for comparison against `_mood_from_lead`. -/
def mood_spec_category (lead : ℤ) : Mood :=
  if lead ≥ 6 then .winning_big
  else if 3 ≤ lead ∧ lead ≤ 5 then .winning
  else if -5 ≤ lead ∧ lead ≤ -3 then .losing
  else if lead ≤ -6 then .losing_big
  else .close

theorem _clamp01_nonneg (x : ℚ) : 0 ≤ _clamp01 x := le_max_left _ _

theorem _clamp01_le_one (x : ℚ) : _clamp01 x ≤ 1 :=
  max_le (by norm_num) (min_le_left _ _)

theorem _clamp_mono {x y : ℚ} (lo hi : ℚ) (h : x ≤ y) :
    _clamp x lo hi ≤ _clamp y lo hi :=
  max_le_max le_rfl (min_le_min le_rfl h)

/-- C4: The mood-profile computation is a pure deterministic function of the
integer score lead; for every `scoreLead`, all four returned probabilities
(speak, gesture/behavior, sound, stall/wait) lie in `[0,1]`, and the returned
category is exactly the spec's five-way classification with thresholds exactly
at `±3` and `±6`. -/
theorem mood_profile_sound (lead : ℤ) :
    (0 ≤ (compute_dynamic_profile lead).move_speak_chance ∧
      (compute_dynamic_profile lead).move_speak_chance ≤ 1) ∧
    (0 ≤ (compute_dynamic_profile lead).behavior_chance ∧
      (compute_dynamic_profile lead).behavior_chance ≤ 1) ∧
    (0 ≤ (compute_dynamic_profile lead).sfx_chance ∧
      (compute_dynamic_profile lead).sfx_chance ≤ 1) ∧
    (0 ≤ (compute_dynamic_profile lead).wait_sfx_chance ∧
      (compute_dynamic_profile lead).wait_sfx_chance ≤ 1) ∧
    (compute_dynamic_profile lead).mood = mood_spec_category lead := by
  refine ⟨⟨?_, ?_⟩, ⟨?_, ?_⟩, ⟨?_, ?_⟩, ⟨?_, ?_⟩, ?_⟩ <;>
    simp only [compute_dynamic_profile]
  · exact _clamp01_nonneg _
  · exact _clamp01_le_one _
  · exact _clamp01_nonneg _
  · exact _clamp01_le_one _
  · exact _clamp01_nonneg _
  · exact _clamp01_le_one _
  · exact _clamp01_nonneg _
  · exact _clamp01_le_one _
  · unfold _mood_from_lead mood_spec_category
    split_ifs <;> first | rfl | omega

/-- C8: The stall/wait-sound probability is monotonically non-increasing in
the score lead; at `scoreLead = 8` the category is `winning_big` and the
stall-sound probability is strictly below its value at `scoreLead = 0`. -/
theorem wait_chance_antitone :
    (∀ l1 l2 : ℤ, l1 ≤ l2 →
      (compute_dynamic_profile l2).wait_sfx_chance ≤
        (compute_dynamic_profile l1).wait_sfx_chance) ∧
    (compute_dynamic_profile 8).mood = Mood.winning_big ∧
    (compute_dynamic_profile 8).wait_sfx_chance <
      (compute_dynamic_profile 0).wait_sfx_chance := by
  have h8 : (compute_dynamic_profile 8).wait_sfx_chance = 1/20 := by
    norm_num [compute_dynamic_profile, _clamp01, _clamp, WAIT_SFX_CHANCE,
      max_def, min_def]
  have h0 : (compute_dynamic_profile 0).wait_sfx_chance = 1/5 := by
    norm_num [compute_dynamic_profile, _clamp01, _clamp, WAIT_SFX_CHANCE,
      max_def, min_def]
  refine ⟨?_, rfl, by rw [h8, h0]; norm_num⟩
  intro l1 l2 h
  simp only [compute_dynamic_profile]
  have hadv : _clamp ((l1 : ℚ) / 6) (-1) 1 ≤ _clamp ((l2 : ℚ) / 6) (-1) 1 := by
    apply _clamp_mono
    have : (l1 : ℚ) ≤ (l2 : ℚ) := by exact_mod_cast h
    linarith
  apply _clamp_mono
  have h1 : max 0 (-(_clamp ((l2 : ℚ) / 6) (-1) 1)) ≤ max 0 (-(_clamp ((l1 : ℚ) / 6) (-1) 1)) :=
    max_le_max le_rfl (neg_le_neg hadv)
  have h2 : max 0 (_clamp ((l1 : ℚ) / 6) (-1) 1) ≤ max 0 (_clamp ((l2 : ℚ) / 6) (-1) 1) :=
    max_le_max le_rfl hadv
  linarith

theorem wait_chance_antitone_witness :
    (compute_dynamic_profile 8).wait_sfx_chance ≤
      (compute_dynamic_profile 0).wait_sfx_chance :=
  wait_chance_antitone.1 0 8 (by decide)

/-- One `play_sfx(session, category, force)` attempt from `robot_brain.py`.
The globals it reads (`shutdown_event`, `is_speaking`, `last_sfx_time`,
`dynamic_profile["sfx_chance"]`) are passed explicitly; `random.random()`
is the oracle `draw` and `random.choice` is the oracle index `choice`.
Result: `none` when the call returns without streaming, `some (url, t)`
when it streams `url` after recording `last_sfx_time := t`. -/
def play_sfx (shutdown speaking : Bool) (now last_sfx_time : ℚ)
    (sfx_chance : ℚ) (force : Bool) (draw : ℚ)
    (pool : List String) (choice : ℕ) : Option (String × ℚ) :=
  if shutdown then none
  else if speaking then none
  else if now - last_sfx_time < SFX_COOLDOWN then none
  else if !force && decide (sfx_chance < draw) then none
  else
    match pool with
    | [] => none
    | u :: us =>
      some ((u :: us).get ⟨choice % (u :: us).length, Nat.mod_lt _ (Nat.succ_pos _)⟩, now)

/-- C5: `play_sfx` rejects while the engine is speaking; rejects below the
fixed 10-second cooldown when `force` is false; skips the probability draw
when `force` is true (the result does not depend on the draw); and on success
records the firing time and streams a URL chosen from the requested pool. -/
theorem play_sfx_gate (shutdown speaking : Bool) (now last_sfx_time : ℚ)
    (sfx_chance : ℚ) (force : Bool) (draw : ℚ) (pool : List String) (choice : ℕ) :
    (speaking = true →
      play_sfx shutdown speaking now last_sfx_time sfx_chance force draw pool choice = none) ∧
    (now - last_sfx_time < SFX_COOLDOWN → force = false →
      play_sfx shutdown speaking now last_sfx_time sfx_chance force draw pool choice = none) ∧
    (force = true → ∀ d1 d2 : ℚ,
      play_sfx shutdown speaking now last_sfx_time sfx_chance force d1 pool choice =
        play_sfx shutdown speaking now last_sfx_time sfx_chance force d2 pool choice) ∧
    (∀ url t,
      play_sfx shutdown speaking now last_sfx_time sfx_chance force draw pool choice =
        some (url, t) → t = now ∧ url ∈ pool) := by
  refine ⟨?_, ?_, ?_, ?_⟩
  · intro h
    cases shutdown <;> simp [play_sfx, h]
  · intro h hf
    cases shutdown <;> cases speaking <;> simp [play_sfx, h, hf]
  · intro hf d1 d2
    simp [play_sfx, hf]
  · intro url t h
    cases pool with
    | nil =>
      exfalso
      revert h
      unfold play_sfx
      split_ifs <;> simp
    | cons u us =>
      revert h
      unfold play_sfx
      split_ifs <;> intro h <;> simp only [Option.some.injEq, Prod.mk.injEq] at h
      obtain ⟨hu, ht⟩ := h
      exact ⟨ht.symm, hu ▸ List.get_mem _ _ _⟩

theorem play_sfx_gate_witness :
    ((1:ℚ) - 0 < SFX_COOLDOWN ∧
      play_sfx false false 1 0 (3/10) false (1/2) ["a", "b"] 3 = none) ∧
    (play_sfx false false 100 0 (3/10) true (9/10) ["a", "b"] 3 = some ("b", 100) →
      (100:ℚ) = 100 ∧ "b" ∈ ["a", "b"]) :=
  ⟨⟨by norm_num [SFX_COOLDOWN],
    (play_sfx_gate false false 1 0 (3/10) false (1/2) ["a", "b"] 3).2.1
      (by norm_num [SFX_COOLDOWN]) rfl⟩,
   (play_sfx_gate false false 100 0 (3/10) true (9/10) ["a", "b"] 3).2.2.2 "b" 100⟩

/-- `MOVES["WIN_BIG"]` from `robot_brain.py`. -/
def MOVES_WIN_BIG : List String := ["BlocklyDiscoDance", "BlocklyStarWars", "BlocklyMacarena"]

/-- `MOVES["WIN_SMALL"]` from `robot_brain.py`. -/
def MOVES_WIN_SMALL : List String := ["BlocklyDab", "BlocklyHappy", "BlocklyApplause"]

/-- `MOVES["LOSE"]` from `robot_brain.py`. -/
def MOVES_LOSE : List String := ["BlocklyCrouch", "BlocklyShrug", "BlocklySad"]

/-- `MOVES["ANNOY"]` from `robot_brain.py`. -/
def MOVES_ANNOY : List String := ["BlocklySneeze", "BlocklySaxophone", "BlocklyTurnAround"]

/-- `MOVES["IDLE"]` from `robot_brain.py`. -/
def MOVES_IDLE : List String := ["BlocklyTaiChiChuan", "BlocklyStand"]

/-- `_should_allow_tag_behavior(anim)` from `robot_brain.py`. The globals it
reads and writes (`last_behavior_time`, `last_behavior_name`,
`dynamic_profile`) are passed and returned explicitly; the result is
`(allowed, last_behavior_time, last_behavior_name)` after the call. -/
def _should_allow_tag_behavior (anim : String) (now last_behavior_time : ℚ)
    (last_behavior_name : Option String) (mood : Mood) (behavior_chance : ℚ)
    (draw : ℚ) : Bool × ℚ × Option String :=
  if now - last_behavior_time < BEHAVIOR_COOLDOWN then
    (false, last_behavior_time, last_behavior_name)
  else if (MOVES_WIN_BIG.contains anim || MOVES_WIN_SMALL.contains anim) &&
      !(decide (mood = Mood.winning) || decide (mood = Mood.winning_big)) then
    (false, last_behavior_time, last_behavior_name)
  else if MOVES_LOSE.contains anim &&
      !(decide (mood = Mood.losing) || decide (mood = Mood.losing_big)) then
    (false, last_behavior_time, last_behavior_name)
  else if last_behavior_name = some anim then
    (false, last_behavior_time, last_behavior_name)
  else
    let base := if mood = Mood.winning_big
      then min (18/100 : ℚ) (TAG_BEHAVIOR_MAX_CHANCE + 6/100)
      else TAG_BEHAVIOR_MAX_CHANCE
    let p := min base (behavior_chance * (1/2))
    if p < draw then (false, last_behavior_time, last_behavior_name)
    else (true, now, some anim)

/-- C9: the LLM-tag gesture gate rejects inside the 25-second behavior
cooldown; allows a winning-pool gesture only in a winning mood; allows a
losing-pool gesture only in a losing mood; and always rejects a gesture
identical to the immediately preceding one. -/
theorem tag_behavior_gate (anim : String) (now last_behavior_time : ℚ)
    (last_behavior_name : Option String) (mood : Mood) (behavior_chance draw : ℚ) :
    (now - last_behavior_time < BEHAVIOR_COOLDOWN →
      (_should_allow_tag_behavior anim now last_behavior_time last_behavior_name
        mood behavior_chance draw).1 = false) ∧
    ((_should_allow_tag_behavior anim now last_behavior_time last_behavior_name
        mood behavior_chance draw).1 = true →
      (MOVES_WIN_BIG.contains anim || MOVES_WIN_SMALL.contains anim) = true →
      mood = Mood.winning ∨ mood = Mood.winning_big) ∧
    ((_should_allow_tag_behavior anim now last_behavior_time last_behavior_name
        mood behavior_chance draw).1 = true →
      MOVES_LOSE.contains anim = true →
      mood = Mood.losing ∨ mood = Mood.losing_big) ∧
    (last_behavior_name = some anim →
      (_should_allow_tag_behavior anim now last_behavior_time last_behavior_name
        mood behavior_chance draw).1 = false) := by
  refine ⟨?_, ?_, ?_, ?_⟩
  · intro h
    simp [_should_allow_tag_behavior, h]
  · intro h hm
    unfold _should_allow_tag_behavior at h
    split_ifs at h with h1 h2 h3 h4 h5 <;> simp_all <;> tauto
  · intro h hm
    unfold _should_allow_tag_behavior at h
    split_ifs at h with h1 h2 h3 h4 h5 <;> simp_all <;> tauto
  · intro h
    unfold _should_allow_tag_behavior
    split_ifs <;> simp_all

theorem tag_behavior_gate_witness :
    ((_should_allow_tag_behavior "BlocklyDab" 1 0 none Mood.winning 1 0).1 = false) ∧
    ((_should_allow_tag_behavior "BlocklyDab" 100 0 (some "BlocklyDab")
        Mood.winning 1 0).1 = false) :=
  ⟨(tag_behavior_gate "BlocklyDab" 1 0 none Mood.winning 1 0).1
      (by norm_num [BEHAVIOR_COOLDOWN]),
   (tag_behavior_gate "BlocklyDab" 100 0 (some "BlocklyDab") Mood.winning 1 0).2.2.2 rfl⟩

/-- A captured audio segment as seen by the pre-transcription gate: either
the 16 kHz / 16-bit converted samples, or a marker that the
duration/loudness computation raised an exception. -/
inductive AudioSegment where
  | ok (samples : List ℤ)
  | err
deriving DecidableEq

/-- `audioop.rms(raw, 2)`: integer square root of the mean squared sample. -/
def audioop_rms (samples : List ℤ) : ℤ :=
  Int.sqrt ((samples.map (fun s => s * s)).sum / samples.length)

/-- `_audio_stats_for_gate(audio)` from `robot_brain.py`: `(duration_seconds,
rms)` with `duration = len(raw) / (16000 * 2)` (byte count over rate times
width) and `rms = audioop.rms(raw, 2)`; the `except` branch returns
`(0.0, 999999)`. `2 * samples.length` is the raw byte count. -/
def _audio_stats_for_gate (audio : AudioSegment) : ℚ × ℤ :=
  match audio with
  | .err => (0, 999999)
  | .ok samples =>
    if samples = [] then (0, 0)
    else ((2 * samples.length : ℚ) / (16000 * 2), audioop_rms samples)

/-- `_should_transcribe_audio(audio)` from `robot_brain.py`, with the
environment-configured thresholds `STT_MIN_AUDIO_SEC` and `STT_MIN_RMS`
passed as parameters. -/
def _should_transcribe_audio (audio : AudioSegment) (minSec : ℚ) (minRms : ℤ) : Bool :=
  if (_audio_stats_for_gate audio).1 < minSec then false
  else if (_audio_stats_for_gate audio).2 < minRms then false
  else true

/-- The capture gate of `listen_loop`: a segment failing
`_should_transcribe_audio` is dropped (`continue`) before any transcription
call; `some` means the segment proceeds to `transcribe_audio`. -/
def capture_gate (audio : AudioSegment) (minSec : ℚ) (minRms : ℤ) :
    Option AudioSegment :=
  if _should_transcribe_audio audio minSec minRms then some audio else none

/-- C10: when the duration/loudness computation raises, the stats are
`(0.0, 999999)`, and with any strictly positive configured minimum duration
the gate rejects the segment, so it is discarded with no transcription
call. -/
theorem audio_error_discarded (minSec : ℚ) (minRms : ℤ) (h : 0 < minSec) :
    _audio_stats_for_gate AudioSegment.err = (0, 999999) ∧
    _should_transcribe_audio AudioSegment.err minSec minRms = false ∧
    capture_gate AudioSegment.err minSec minRms = none := by
  refine ⟨rfl, ?_, ?_⟩ <;>
    simp [capture_gate, _should_transcribe_audio, _audio_stats_for_gate, h]

/-- A game-state snapshot dict as consumed by `app/openai_agent.py`
(`winner` is `-1` for the robot, `1` for the human, anything else — including
a missing key — is treated as a draw by the fallback). -/
structure Snapshot where
  turn_index : ℤ
  ai_score : ℤ
  human_score : ℤ
  ai_lead : ℤ
  game_over : Bool
  winner : Option ℤ
deriving DecidableEq

/-- `_fallback_taunt(snapshot, phase)` from `app/openai_agent.py` (the
`phase` argument is not used by the function body). -/
def _fallback_taunt (s : Snapshot) (_phase : String) : String :=
  if s.game_over then
    if s.winner = some (-1) then "Ez clap, you just got skill-issued."
    else if s.winner = some 1 then "Laggy sensors, doesn’t count—run it back."
    else "A draw is mid, nobody cooked."
  else if s.ai_lead > 5 then "I’m speedrunning you, stay awake."
  else if s.ai_lead < -5 then "Okay stop tryharding, it’s just Connect 4."
  else "Your move—try not to fumble."

/-- One step of the sentence-terminator scan in `_clean_one_sentence`:
`t.find(sep)` followed by the `0 <= i <= 120` truncation test. -/
def _try_sep_cut (cs : List Char) (sep : Char) : Option (List Char) :=
  match cs.findIdx? (· = sep) with
  | some i => if i ≤ 120 then some (cs.take (i+1)) else none
  | none => none

/-- The `for sep in [".", "!", "?"]` loop of `_clean_one_sentence`. -/
def _first_sep_cut (cs : List Char) : List Char :=
  match _try_sep_cut cs '.' with
  | some r => r
  | none =>
    match _try_sep_cut cs '!' with
    | some r => r
    | none =>
      match _try_sep_cut cs '?' with
      | some r => r
      | none => cs

/-- Python `str.rstrip()` on a character list. -/
def _rstrip (cs : List Char) : List Char :=
  (cs.reverse.dropWhile Char.isWhitespace).reverse

/-- Python `str.strip()` on a character list. -/
def _strip (cs : List Char) : List Char :=
  _rstrip (cs.dropWhile Char.isWhitespace)

/-- `_clean_one_sentence(text)` from `app/openai_agent.py`: strip, flatten
newlines to spaces, truncate at the first early sentence terminator, hard
cap at 180 characters, final strip. -/
def _clean_one_sentence (text : String) : String :=
  let t := (_strip text.toList).map (fun c => if c = '\n' then ' ' else c)
  if t = [] then ""
  else
    let cs := _first_sep_cut t
    let cs2 := if cs.length > 180 then _rstrip (cs.take 180) else cs
    String.mk (_strip cs2)

/-- Outcome of one `client.responses.create(model, ...)` call as
`generate_taunt` observes it: the output text, a model-not-found error
(as classified by `_is_model_not_found_error`), or any other exception. -/
inductive ModelOutcome where
  | ok (text : String)
  | modelNotFound
  | otherError
deriving DecidableEq

/-- `fallback_models` from `generate_taunt`. -/
def fallback_models : List String := ["gpt-4o-mini", "gpt-4o"]

/-- The keys of `PHASE_INSTRUCTIONS` in `app/openai_agent.py`. -/
def PHASE_KEYS : List String := ["intro", "midgame", "robot_wins", "human_wins", "draw"]

/-- The `if phase not in PHASE_INSTRUCTIONS: phase = "midgame"` normalization
at the top of `generate_taunt`. -/
def normalize_phase (phase : String) : String :=
  if PHASE_KEYS.contains phase then phase else "midgame"

/-- The `for model in models_to_try` loop of `generate_taunt`: on success
return the cleaned text unless it cleans to empty (then the scripted
fallback); on a model-not-found error try the next model; on any other
error return the scripted fallback; when the list is exhausted return the
scripted fallback. -/
def taunt_chain (s : Snapshot) (phase : String) (call : String → ModelOutcome) :
    List String → String
  | [] => _fallback_taunt s phase
  | m :: ms =>
    match call m with
    | .ok t =>
      if _clean_one_sentence t = "" then _fallback_taunt s phase
      else _clean_one_sentence t
    | .modelNotFound => taunt_chain s phase call ms
    | .otherError => _fallback_taunt s phase

/-- `generate_taunt(snapshot, phase)` from `app/openai_agent.py`, with the
environment (`OPENAI_API_KEY`, `OPENAI_MODEL`) and the network call as
explicit inputs. `models_to_try = [primary_model] + [m for m in
fallback_models if m != primary_model]`. -/
def generate_taunt (s : Snapshot) (phase : String) (api_key : Option String)
    (primary : String) (call : String → ModelOutcome) : String :=
  match api_key with
  | none => _fallback_taunt s (normalize_phase phase)
  | some _ =>
    taunt_chain s (normalize_phase phase) call
      (primary :: fallback_models.filter (· ≠ primary))

theorem _fallback_taunt_nonempty (s : Snapshot) (phase : String) :
    _fallback_taunt s phase ≠ "" := by
  unfold _fallback_taunt
  split_ifs <;> decide

theorem _clean_one_sentence_empty : _clean_one_sentence "" = "" := by rfl

theorem taunt_chain_all_not_found (s : Snapshot) (phase : String)
    (call : String → ModelOutcome) (h : ∀ m, call m = ModelOutcome.modelNotFound) :
    ∀ ms, taunt_chain s phase call ms = _fallback_taunt s phase := by
  intro ms
  induction ms with
  | nil => rfl
  | cons m ms ih => simp [taunt_chain, h m, ih]

theorem taunt_chain_spec (s : Snapshot) (phase : String)
    (call : String → ModelOutcome) :
    ∀ ms, (∃ m ∈ ms, ∃ t, call m = ModelOutcome.ok t ∧
        taunt_chain s phase call ms = _clean_one_sentence t ∧
        _clean_one_sentence t ≠ "") ∨
      taunt_chain s phase call ms = _fallback_taunt s phase := by
  intro ms
  induction ms with
  | nil => exact Or.inr rfl
  | cons m ms ih =>
    cases hc : call m with
    | ok t =>
      by_cases he : _clean_one_sentence t = ""
      · right; simp [taunt_chain, hc, he]
      · left; exact ⟨m, by simp, t, hc, by simp [taunt_chain, hc, he], he⟩
    | modelNotFound =>
      rcases ih with ⟨m', hm', t, h1, h2, h3⟩ | h
      · left
        exact ⟨m', by simp [hm'], t, h1, by simp [taunt_chain, hc, h2], h3⟩
      · right; simp [taunt_chain, hc, h]
    | otherError => right; simp [taunt_chain, hc]

/-- C7: for every game snapshot and phase, `generate_taunt` applies the
model-fallback chain (primary model first, then the fallback models on
model-not-found errors) and returns the deterministic, non-empty scripted
fallback string when no API key is configured, when every model is
unavailable, or when the model output is empty; its result is never the
empty string. -/
theorem generate_taunt_fallback (s : Snapshot) (phase : String)
    (primary : String) (call : String → ModelOutcome) :
    (generate_taunt s phase none primary call =
      _fallback_taunt s (normalize_phase phase)) ∧
    (∀ k, (∀ m, call m = ModelOutcome.modelNotFound) →
      generate_taunt s phase (some k) primary call =
        _fallback_taunt s (normalize_phase phase)) ∧
    (∀ k, call primary = ModelOutcome.ok "" →
      generate_taunt s phase (some k) primary call =
        _fallback_taunt s (normalize_phase phase)) ∧
    (_fallback_taunt s (normalize_phase phase) ≠ "") ∧
    (∀ k, (∃ m ∈ primary :: fallback_models.filter (· ≠ primary), ∃ t,
        call m = ModelOutcome.ok t ∧
        generate_taunt s phase (some k) primary call = _clean_one_sentence t ∧
        _clean_one_sentence t ≠ "") ∨
      generate_taunt s phase (some k) primary call =
        _fallback_taunt s (normalize_phase phase)) ∧
    (∀ k, generate_taunt s phase (some k) primary call ≠ "") := by
  refine ⟨rfl, ?_, ?_, _fallback_taunt_nonempty s _, ?_, ?_⟩
  · intro k h
    exact taunt_chain_all_not_found s _ call h _
  · intro k h
    simp [generate_taunt, taunt_chain, h, _clean_one_sentence_empty]
  · intro k
    exact taunt_chain_spec s _ call _
  · intro k
    show taunt_chain s (normalize_phase phase) call
        (primary :: fallback_models.filter (· ≠ primary)) ≠ ""
    rcases taunt_chain_spec s (normalize_phase phase) call
        (primary :: fallback_models.filter (· ≠ primary)) with ⟨m, _, t, _, h2, h3⟩ | h
    · rw [h2]; exact h3
    · rw [h]; exact _fallback_taunt_nonempty s (normalize_phase phase)

theorem generate_taunt_fallback_witness :
    generate_taunt ⟨0, 0, 0, 0, false, none⟩ "midgame" (some "k") "gpt-5"
        (fun _ => ModelOutcome.modelNotFound) =
      _fallback_taunt ⟨0, 0, 0, 0, false, none⟩ (normalize_phase "midgame") :=
  (generate_taunt_fallback ⟨0, 0, 0, 0, false, none⟩ "midgame" "gpt-5"
    (fun _ => ModelOutcome.modelNotFound)).2.1 "k" (fun _ => rfl)

theorem audio_error_discarded_witness :
    _audio_stats_for_gate AudioSegment.err = (0, 999999) ∧
    _should_transcribe_audio AudioSegment.err (1/5) 180 = false ∧
    capture_gate AudioSegment.err (1/5) 180 = none :=
  audio_error_discarded (1/5) 180 (by norm_num)

/-- `LOSING_BIG_INTERRUPTS` from `robot_brain.py`. -/
def LOSING_BIG_INTERRUPTS : List String :=
  ["Shh‚ÄîI\x27m trying to focus.",
   "Wait wait wait, I\x27m thinking.",
   "S-s-s-stop, I\x27m trying to focus."]

/-- `WINNING_BIG_INTERRUPTS` from `robot_brain.py`. -/
def WINNING_BIG_INTERRUPTS : List String :=
  ["You talk a lot for someone getting cooked.",
   "Less talking, more moves.",
   "Focus on the board, you\x27re spiraling."]

/-- `IGNORE_ONE_WORD_MIDGAME` (environment default `"1"`, i.e. enabled). -/
def IGNORE_ONE_WORD_MIDGAME : Bool := true

/-- `random.choice` over a non-empty string pool, with the random index as
an oracle input. -/
def choice_mod (xs : List String) (i : ℕ) : String := xs.getD (i % xs.length) ""

/-- Commands issued to the actuator gateway, the backend, or the Response
Generator while `listen_loop` handles one utterance. -/
inductive Cmd where
  | dialogue_stop
  | say (text : String)
  | reset
  | behavior (name : String)
  | gen_response (rematchCtx : Bool)
deriving DecidableEq

/-- Instrumentation events: which blowout interrupt fired, and each call of
`reset_per_game_flags()`. -/
inductive LEvent where
  | fired_losing
  | fired_winning
  | flags_cleared
deriving DecidableEq

/-- The shared globals of `robot_brain.py` that `listen_loop` reads and
writes: `is_speaking`, `rematch_mode`, the two per-game blowout flags,
`_prev_game_over_seen`, `user_name`, `last_posture`. -/
structure ListenState where
  is_speaking : Bool
  rematch_mode : Bool
  used_losing_big_interrupt : Bool
  used_winning_big_interrupt : Bool
  prev_game_over_seen : Option Bool
  user_name : Option String
  last_posture : String
deriving DecidableEq

/-- One transcribed, non-empty utterance together with the oracle values
`listen_loop` observes while handling it: the `YES_RE`/`NO_RE` regex results
on the text, the one-word post-STT filter result on the text, the freshly
fetched backend snapshot (`game_over_now`, `lead_now`), the second fetch
before the LLM call (`latest_game_over`), the `maybe_extract_name` result,
the `random.choice` indices for the interrupt phrases, and the LLM reply as
the engine inspects it (`ACTION_RESET`/`ACTION_QUIT` markers, cleaned
speech, recognized behavior tag, tag-gate outcome). -/
structure UttInput where
  yesMatch : Bool
  noMatch : Bool
  oneWordBlocked : Bool
  game_over_now : Bool
  lead_now : ℤ
  latest_game_over : Bool
  nameFound : Option String
  losingPhraseIdx : ℕ
  winningPhraseIdx : ℕ
  replyReset : Bool
  replyQuit : Bool
  replySpeech : Option String
  replyAnim : Option String
  tagAllowed : Bool
deriving DecidableEq

/-- The `if is_speaking: reactor.callFromThread(session.call,
"rie.dialogue.stop")` pattern. -/
def stop_cmds (speaking : Bool) : List Cmd :=
  if speaking then [Cmd.dialogue_stop] else []

/-- The `if speech:` speak step of the LLM path. -/
def speech_cmds (sp : Option String) : List Cmd :=
  match sp with
  | some s => [Cmd.say s]
  | none => []

/-- The `if anim and _should_allow_tag_behavior(anim):` step of the LLM
path. -/
def anim_cmds (anim : Option String) (allowed : Bool) : List Cmd :=
  match anim with
  | some a => if allowed then [Cmd.behavior a] else []
  | none => []

/-- `maybe_extract_name` learning: `if name and name != user_name:
user_name = name`. -/
def name_update (cur found : Option String) : Option String :=
  match found with
  | some n => if some n = cur then cur else some n
  | none => cur

/-- The `_prev_game_over_seen` bookkeeping of `listen_loop`: the previous
observed `game_over` is replaced by the current one, and
`reset_per_game_flags()` runs exactly when the previously seen value was
`True` and the current one is `False` (when `_prev_game_over_seen` is still
`None` it is only initialized). The returned `Bool` records whether the
flags were cleared. -/
def transition_stage (st : ListenState) (go_now : Bool) : ListenState × Bool :=
  if st.prev_game_over_seen = some true ∧ go_now = false then
    ({ st with used_losing_big_interrupt := false,
               used_winning_big_interrupt := false,
               prev_game_over_seen := some go_now }, true)
  else
    ({ st with prev_game_over_seen := some go_now }, false)

/-- The hard rematch handler of `listen_loop` (entered when the freshly
fetched `game_over` is true): force `rematch_mode = True`, stop current
speech, then classify via `YES_RE` / `NO_RE`: affirmative says the
acknowledgement, posts `/reset`, schedules the auto-stand, clears the
per-game flags and leaves the rematch window; negative says the farewell
and crouches; otherwise re-prompt. Every branch ends with `continue`
(never reaching the Response Generator) and `is_speaking = False`. -/
def rematch_stage (st : ListenState) (u : UttInput) :
    ListenState × List Cmd × List LEvent :=
  let st1 := { st with rematch_mode := true }
  if u.yesMatch then
    ({ st1 with used_losing_big_interrupt := false,
                used_winning_big_interrupt := false,
                rematch_mode := false, is_speaking := false },
     stop_cmds st1.is_speaking ++
       [Cmd.say "Here we go again!", Cmd.reset, Cmd.behavior "BlocklyStand"],
     [LEvent.flags_cleared])
  else if u.noMatch then
    ({ st1 with last_posture := "crouch", is_speaking := false },
     stop_cmds st1.is_speaking ++ [Cmd.say "Fine, bye.", Cmd.behavior "BlocklyCrouch"],
     [])
  else
    ({ st1 with is_speaking := false },
     stop_cmds st1.is_speaking ++ [Cmd.say "Say yes for a rematch, or no to quit."],
     [])

/-- The name-learning / LLM / speech tail of `listen_loop`: learn the name,
stop in-progress speech, set the speaking flag, pick the context from
`rematch_mode` or the second fresh fetch, call the Response Generator, then
act on `ACTION_RESET` / `ACTION_QUIT` / plain speech plus gated tag
behavior, and clear the speaking flag. -/
def llm_stage (st : ListenState) (u : UttInput) :
    ListenState × List Cmd × List LEvent :=
  let st1 := { st with user_name := name_update st.user_name u.nameFound }
  let ctx := st1.rematch_mode || u.latest_game_over
  if u.replyReset then
    ({ st1 with used_losing_big_interrupt := false,
                used_winning_big_interrupt := false,
                rematch_mode := false, is_speaking := false },
     stop_cmds st1.is_speaking ++
       [Cmd.gen_response ctx, Cmd.say "Here we go again!", Cmd.reset,
        Cmd.behavior "BlocklyStand"],
     [LEvent.flags_cleared])
  else if u.replyQuit then
    ({ st1 with last_posture := "crouch", is_speaking := false },
     stop_cmds st1.is_speaking ++
       [Cmd.gen_response ctx, Cmd.say "Fine, bye.", Cmd.behavior "BlocklyCrouch"],
     [])
  else
    ({ st1 with is_speaking := false },
     stop_cmds st1.is_speaking ++ [Cmd.gen_response ctx] ++
       speech_cmds u.replySpeech ++ anim_cmds u.replyAnim u.tagAllowed,
     [])

/-- One complete handling of a transcribed non-empty utterance by
`listen_loop` (normal execution): the post-STT one-word filter, the
`_prev_game_over_seen` transition bookkeeping, the hard rematch handler
when the fresh snapshot says `game_over`, the two blowout interrupts
(midgame only, once per game per direction, discarding the utterance),
and otherwise the LLM path. -/
def listen_step (st : ListenState) (u : UttInput) :
    ListenState × List Cmd × List LEvent :=
  if u.game_over_now = false ∧ IGNORE_ONE_WORD_MIDGAME = true ∧
      u.oneWordBlocked = true then
    (st, [], [])
  else
    let tr := transition_stage st u.game_over_now
    let st1 := tr.1
    let evs := if tr.2 then [LEvent.flags_cleared] else []
    if u.game_over_now = true then
      let r := rematch_stage st1 u
      (r.1, r.2.1, evs ++ r.2.2)
    else if st1.rematch_mode = false ∧ u.lead_now ≤ -BLOWOUT_LEAD ∧
        st1.used_losing_big_interrupt = false then
      ({ st1 with used_losing_big_interrupt := true, is_speaking := false },
       stop_cmds st1.is_speaking ++
         [Cmd.say (choice_mod LOSING_BIG_INTERRUPTS u.losingPhraseIdx)],
       evs ++ [LEvent.fired_losing])
    else if st1.rematch_mode = false ∧ BLOWOUT_LEAD ≤ u.lead_now ∧
        st1.used_winning_big_interrupt = false then
      ({ st1 with used_winning_big_interrupt := true, is_speaking := false },
       stop_cmds st1.is_speaking ++
         [Cmd.say (choice_mod WINNING_BIG_INTERRUPTS u.winningPhraseIdx)],
       evs ++ [LEvent.fired_winning])
    else
      let r := llm_stage st1 u
      (r.1, r.2.1, evs ++ r.2.2)

/-- One record per handled utterance of a speech-loop run. -/
structure UttEntry where
  pre : ListenState
  input : UttInput
  cmds : List Cmd
  events : List LEvent
  post : ListenState
deriving DecidableEq

/-- Iterated `listen_step` over a list of utterances. -/
def listen_run (st : ListenState) : List UttInput → List UttEntry
  | [] => []
  | u :: us =>
    let r := listen_step st u
    { pre := st, input := u, cmds := r.2.1, events := r.2.2, post := r.1 } ::
      listen_run r.1 us

/-- The module-load values of the shared globals. -/
def init_listen_state : ListenState :=
  { is_speaking := false, rematch_mode := false,
    used_losing_big_interrupt := false, used_winning_big_interrupt := false,
    prev_game_over_seen := none, user_name := none, last_posture := "stand" }

theorem mem_stop_cmds (c : Cmd) (s : Bool) :
    c ∈ stop_cmds s ↔ s = true ∧ c = Cmd.dialogue_stop := by
  cases s <;> simp [stop_cmds]

theorem mem_speech_cmds (c : Cmd) (sp : Option String) :
    c ∈ speech_cmds sp ↔ ∃ s, sp = some s ∧ c = Cmd.say s := by
  cases sp <;> simp [speech_cmds]

theorem mem_anim_cmds (c : Cmd) (a : Option String) (al : Bool) :
    c ∈ anim_cmds a al ↔ ∃ n, a = some n ∧ al = true ∧ c = Cmd.behavior n := by
  cases a <;> cases al <;> simp [anim_cmds]

theorem count_reset_stop_cmds (s : Bool) : (stop_cmds s).count Cmd.reset = 0 := by
  cases s <;> simp [stop_cmds]

/-- C1: for every utterance handled while the freshly re-fetched snapshot
has `gameOver = true`, an affirmative match issues exactly one reset command
and leaves the rematch window (`rematch_mode` ends false) regardless of the
prior value of the shared rematch flag; and on this game-over path
(affirmative, negative, or ambiguous) the Response Generator is never
called. -/
theorem rematch_race_safe (st : ListenState) (u : UttInput)
    (hgo : u.game_over_now = true) :
    (u.yesMatch = true →
      ((listen_step st u).2.1.count Cmd.reset = 1 ∧
        (listen_step st u).1.rematch_mode = false)) ∧
    (∀ b, Cmd.gen_response b ∉ (listen_step st u).2.1) := by
  constructor
  · intro hy
    simp [listen_step, transition_stage, rematch_stage, hgo, hy,
      List.count_append, count_reset_stop_cmds]
  · intro b
    simp only [listen_step, transition_stage, rematch_stage, hgo]
    by_cases hy : u.yesMatch = true <;>
      by_cases hn : u.noMatch = true <;>
        simp [hy, hn, mem_stop_cmds]

theorem rematch_race_safe_witness :
    (listen_step
        { init_listen_state with rematch_mode := false, is_speaking := true }
        { yesMatch := true, noMatch := false, oneWordBlocked := false,
          game_over_now := true, lead_now := 0, latest_game_over := true,
          nameFound := none, losingPhraseIdx := 0, winningPhraseIdx := 0,
          replyReset := false, replyQuit := false, replySpeech := none,
          replyAnim := none, tagAllowed := false }).2.1.count Cmd.reset = 1 ∧
    (listen_step
        { init_listen_state with rematch_mode := false, is_speaking := true }
        { yesMatch := true, noMatch := false, oneWordBlocked := false,
          game_over_now := true, lead_now := 0, latest_game_over := true,
          nameFound := none, losingPhraseIdx := 0, winningPhraseIdx := 0,
          replyReset := false, replyQuit := false, replySpeech := none,
          replyAnim := none, tagAllowed := false }).1.rematch_mode = false :=
  (rematch_race_safe
    { init_listen_state with rematch_mode := false, is_speaking := true }
    { yesMatch := true, noMatch := false, oneWordBlocked := false,
      game_over_now := true, lead_now := 0, latest_game_over := true,
      nameFound := none, losingPhraseIdx := 0, winningPhraseIdx := 0,
      replyReset := false, replyQuit := false, replySpeech := none,
      replyAnim := none, tagAllowed := false } rfl).1 rfl

/-- Reachability invariant of the speech loop: whenever the last observed
snapshot had `game_over = true`, either the engine is still in the rematch
window or the per-game blowout flags are both clear (the paths that leave
the rematch window clear them). -/
def listen_invariant (st : ListenState) : Prop :=
  st.prev_game_over_seen = some true →
    (st.rematch_mode = true ∨
      (st.used_losing_big_interrupt = false ∧ st.used_winning_big_interrupt = false))

set_option maxHeartbeats 2000000 in
theorem listen_step_blowout (st : ListenState) (u : UttInput)
    (hI : listen_invariant st) :
    (LEvent.fired_losing ∈ (listen_step st u).2.2 →
      st.used_losing_big_interrupt = false ∧
      (listen_step st u).1.used_losing_big_interrupt = true ∧
      u.lead_now ≤ -BLOWOUT_LEAD ∧
      ∀ b, Cmd.gen_response b ∉ (listen_step st u).2.1) ∧
    (LEvent.fired_winning ∈ (listen_step st u).2.2 →
      st.used_winning_big_interrupt = false ∧
      (listen_step st u).1.used_winning_big_interrupt = true ∧
      BLOWOUT_LEAD ≤ u.lead_now ∧
      ∀ b, Cmd.gen_response b ∉ (listen_step st u).2.1) ∧
    (LEvent.flags_cleared ∈ (listen_step st u).2.2 →
      (st.prev_game_over_seen = some true ∧ u.game_over_now = false) ∨
      Cmd.reset ∈ (listen_step st u).2.1) ∧
    (LEvent.flags_cleared ∉ (listen_step st u).2.2 →
      (st.used_losing_big_interrupt = true →
        (listen_step st u).1.used_losing_big_interrupt = true) ∧
      (st.used_winning_big_interrupt = true →
        (listen_step st u).1.used_winning_big_interrupt = true)) ∧
    listen_invariant (listen_step st u).1 := by
  simp only [listen_step, transition_stage, rematch_stage, llm_stage]
  split_ifs <;>
    simp_all [listen_invariant, mem_stop_cmds, mem_speech_cmds, mem_anim_cmds,
      List.mem_append, List.mem_cons] <;>
    tauto

theorem listen_run_blowout (st : ListenState) (hI : listen_invariant st)
    (us : List UttInput) :
    ∀ e ∈ listen_run st us,
      (LEvent.fired_losing ∈ e.events →
        e.pre.used_losing_big_interrupt = false ∧
        e.post.used_losing_big_interrupt = true ∧
        e.input.lead_now ≤ -BLOWOUT_LEAD ∧
        ∀ b, Cmd.gen_response b ∉ e.cmds) ∧
      (LEvent.fired_winning ∈ e.events →
        e.pre.used_winning_big_interrupt = false ∧
        e.post.used_winning_big_interrupt = true ∧
        BLOWOUT_LEAD ≤ e.input.lead_now ∧
        ∀ b, Cmd.gen_response b ∉ e.cmds) ∧
      (LEvent.flags_cleared ∈ e.events →
        (e.pre.prev_game_over_seen = some true ∧ e.input.game_over_now = false) ∨
        Cmd.reset ∈ e.cmds) ∧
      (LEvent.flags_cleared ∉ e.events →
        (e.pre.used_losing_big_interrupt = true →
          e.post.used_losing_big_interrupt = true) ∧
        (e.pre.used_winning_big_interrupt = true →
          e.post.used_winning_big_interrupt = true)) := by
  induction us generalizing st with
  | nil => intro e he; simp [listen_run] at he
  | cons u us ih =>
    intro e he
    simp only [listen_run, List.mem_cons] at he
    rcases he with rfl | he
    · obtain ⟨h1, h2, h3, h4, _⟩ := listen_step_blowout st u hI
      exact ⟨h1, h2, h3, h4⟩
    · exact ih _ (listen_step_blowout st u hI).2.2.2.2 e he

/-- C3 (amended): over every run of the speech loop from the initial state,
each blowout direction fires only with its per-game flag clear and with the
lead at its threshold, and sets the flag; a firing discards the utterance
(the Response Generator is not called on it); the per-game flags are
cleared only on an observed `gameOver` true → false transition or within
handling an utterance that issues a reset command (the affirmative rematch
path and the `ACTION_RESET` fallback path); and without a clearing a set
flag persists — so each direction fires at most once per game. -/
theorem blowout_once_per_game (us : List UttInput) :
    ∀ e ∈ listen_run init_listen_state us,
      (LEvent.fired_losing ∈ e.events →
        e.pre.used_losing_big_interrupt = false ∧
        e.post.used_losing_big_interrupt = true ∧
        e.input.lead_now ≤ -BLOWOUT_LEAD ∧
        ∀ b, Cmd.gen_response b ∉ e.cmds) ∧
      (LEvent.fired_winning ∈ e.events →
        e.pre.used_winning_big_interrupt = false ∧
        e.post.used_winning_big_interrupt = true ∧
        BLOWOUT_LEAD ≤ e.input.lead_now ∧
        ∀ b, Cmd.gen_response b ∉ e.cmds) ∧
      (LEvent.flags_cleared ∈ e.events →
        (e.pre.prev_game_over_seen = some true ∧ e.input.game_over_now = false) ∨
        Cmd.reset ∈ e.cmds) ∧
      (LEvent.flags_cleared ∉ e.events →
        (e.pre.used_losing_big_interrupt = true →
          e.post.used_losing_big_interrupt = true) ∧
        (e.pre.used_winning_big_interrupt = true →
          e.post.used_winning_big_interrupt = true)) :=
  listen_run_blowout init_listen_state (by simp [listen_invariant, init_listen_state]) us

/-- A midgame utterance at lead −6 with all oracle fields inert: it triggers
the losing-big blowout interrupt. -/
def cx_u1 : UttInput :=
  { yesMatch := false, noMatch := false, oneWordBlocked := false,
    game_over_now := false, lead_now := -6, latest_game_over := false,
    nameFound := none, losingPhraseIdx := 0, winningPhraseIdx := 0,
    replyReset := false, replyQuit := false, replySpeech := none,
    replyAnim := none, tagAllowed := false }

/-- An affirmative utterance captured right after the game ends. -/
def cx_u2 : UttInput :=
  { yesMatch := true, noMatch := false, oneWordBlocked := false,
    game_over_now := true, lead_now := -6, latest_game_over := true,
    nameFound := none, losingPhraseIdx := 0, winningPhraseIdx := 0,
    replyReset := false, replyQuit := false, replySpeech := none,
    replyAnim := none, tagAllowed := false }

/-- The run entry produced by `cx_u2` after `cx_u1` from the initial state. -/
def cx_entry : UttEntry :=
  { pre := { is_speaking := false, rematch_mode := false,
             used_losing_big_interrupt := true, used_winning_big_interrupt := false,
             prev_game_over_seen := some false, user_name := none,
             last_posture := "stand" }
    input := cx_u2
    cmds := [Cmd.say "Here we go again!", Cmd.reset, Cmd.behavior "BlocklyStand"]
    events := [LEvent.flags_cleared]
    post := { is_speaking := false, rematch_mode := false,
              used_losing_big_interrupt := false, used_winning_big_interrupt := false,
              prev_game_over_seen := some true, user_name := none,
              last_posture := "stand" } }

/-- C3 counterexample to the claim as stated: on the affirmative rematch
path the per-game flags are cleared (`reset_per_game_flags()` runs and the
set losing flag goes true → false) at a step where no `gameOver`
true → false transition is observed (the previously seen value was
`false` and the current snapshot still has `gameOver = true`). -/
theorem blowout_reset_counterexample :
    cx_entry ∈ listen_run init_listen_state [cx_u1, cx_u2] ∧
    LEvent.flags_cleared ∈ cx_entry.events ∧
    cx_entry.pre.used_losing_big_interrupt = true ∧
    cx_entry.post.used_losing_big_interrupt = false ∧
    ¬(cx_entry.pre.prev_game_over_seen = some true ∧
      cx_entry.input.game_over_now = false) := by
  decide

/-- A midgame utterance at lead −6, used to exhibit a firing entry. -/
def w3_u : UttInput :=
  { yesMatch := false, noMatch := false, oneWordBlocked := false,
    game_over_now := false, lead_now := -6, latest_game_over := false,
    nameFound := none, losingPhraseIdx := 1, winningPhraseIdx := 0,
    replyReset := false, replyQuit := false, replySpeech := none,
    replyAnim := none, tagAllowed := false }

/-- The run entry produced by `w3_u` from the initial state. -/
def w3_entry : UttEntry :=
  { pre := init_listen_state
    input := w3_u
    cmds := [Cmd.say "Wait wait wait, I\x27m thinking."]
    events := [LEvent.fired_losing]
    post := { is_speaking := false, rematch_mode := false,
              used_losing_big_interrupt := true, used_winning_big_interrupt := false,
              prev_game_over_seen := some false, user_name := none,
              last_posture := "stand" } }

theorem blowout_once_per_game_witness :
    w3_entry.pre.used_losing_big_interrupt = false ∧
    w3_entry.post.used_losing_big_interrupt = true ∧
    w3_entry.input.lead_now ≤ -BLOWOUT_LEAD ∧
    (∀ b, Cmd.gen_response b ∉ w3_entry.cmds) :=
  (blowout_once_per_game [w3_u] w3_entry (by decide)).1 (by decide)

/-- Control-flow skeleton of one `listen_loop` iteration with respect to
the `is_speaking` flag and the two `except Exception` handlers. `ExcPoint`
says where (if anywhere) an exception is raised while handling the
utterance:

* `noExc` — no exception; the handler ends by setting `is_speaking = False`;
* `innerEarly` — raised inside the inner `try` (transcription / state peek /
  rematch / blowout region) before any `is_speaking = True` assignment; the
  inner `except Exception: continue` catches it without touching the flag;
* `innerMid` — raised inside the inner `try` after an `is_speaking = True`
  assignment (for example during a rematch or blowout actuator call); the
  inner handler catches it and continues, leaving `is_speaking = True`;
* `outerLate` — raised in the rest of the body (the name / LLM / speech
  stage); the outer handler catches it and forces `is_speaking = False`.

The result is `(is_speaking after the iteration, whether the loop continues
to the next capture)`; `listen_step` models the `noExc` data flow in
detail. -/
inductive ExcPoint where
  | noExc
  | innerEarly
  | innerMid
  | outerLate
deriving DecidableEq

/-- The `(is_speaking, loop continues)` outcome of one `listen_loop`
iteration that starts with `is_speaking = speaking0`, as a function of where
an exception is raised. -/
def listen_iteration_exc (speaking0 : Bool) (e : ExcPoint) : Bool × Bool :=
  match e with
  | .noExc => (false, true)
  | .innerEarly => (speaking0, true)
  | .innerMid => (true, true)
  | .outerLate => (false, true)

/-- C6 counterexample to the claim as stated: an exception raised inside
the inner handler region after `is_speaking` was set true is caught by the
inner `except Exception: continue`, which does not touch the flag — the
handler for that utterance completes with `is_speaking = true`, not
false. -/
theorem listen_exc_counterexample :
    (listen_iteration_exc false ExcPoint.innerMid).1 = true ∧
    (listen_iteration_exc false ExcPoint.innerMid).2 = true := ⟨rfl, rfl⟩

/-- C6 (amended): every exception raised during one utterance's handling is
caught inside the loop body and the loop proceeds to the next capture; the
speaking flag is false after normal completion and after the outer error
path (where it is forced false); on the inner error path the flag keeps the
value it had when the exception was raised. -/
theorem listen_exc_caught (speaking0 : Bool) (e : ExcPoint) :
    (listen_iteration_exc speaking0 e).2 = true ∧
    ((e = ExcPoint.noExc ∨ e = ExcPoint.outerLate) →
      (listen_iteration_exc speaking0 e).1 = false) ∧
    (e = ExcPoint.innerEarly → (listen_iteration_exc speaking0 e).1 = speaking0) ∧
    (e = ExcPoint.innerMid → (listen_iteration_exc speaking0 e).1 = true) := by
  cases e <;> simp [listen_iteration_exc]

theorem listen_exc_caught_witness :
    (listen_iteration_exc true ExcPoint.outerLate).2 = true ∧
    (listen_iteration_exc true ExcPoint.outerLate).1 = false :=
  ⟨(listen_exc_caught true ExcPoint.outerLate).1,
   (listen_exc_caught true ExcPoint.outerLate).2.1 (Or.inr rfl)⟩

/-- `choose_wait_sfx_category(mood)` from `robot_brain.py`, with the random
draw as an oracle input. -/
def choose_wait_sfx_category (mood : Mood) (draw : ℚ) : String :=
  if mood = Mood.winning_big ∨ mood = Mood.winning then
    if draw < 4/5 then "WIN" else "ANNOY"
  else if mood = Mood.close then
    if draw < 17/20 then "ANNOY" else "WAIT"
  else
    if draw < 7/10 then "LOSE" else "WAIT"

/-- Timer-relevant globals of `game_loop` in `robot_brain.py`:
`last_turn_index`, `rematch_mode`, `wait_sfx_due`, `wait_sfx_turn`,
`wait_sfx_category`. The `is_speaking` flag is written by the speech loop
and only read here, so it appears as a tick input. -/
structure LoopState where
  last_turn_index : ℤ
  rematch_mode : Bool
  wait_sfx_due : Option ℚ
  wait_sfx_turn : Option ℤ
  wait_sfx_category : String
deriving DecidableEq

/-- One successfully fetched snapshot plus the oracle values consumed during
that tick of `game_loop`: the fields relevant to the timer logic, the
wall-clock time, the shared `is_speaking` value, and the random draws used
by `schedule_wait_sfx` (`catDraw` for the category, `schedDraw` against
`wait_sfx_chance`, `delay` for
`random.uniform(WAIT_SFX_DELAY_MIN, WAIT_SFX_DELAY_MAX)`). -/
structure TickInput where
  turn : ℤ
  game_over : Bool
  lead : ℤ
  is_speaking : Bool
  now : ℚ
  catDraw : ℚ
  schedDraw : ℚ
  delay : ℚ
deriving DecidableEq

/-- `schedule_wait_sfx(turn, profile)` from `robot_brain.py`: always records
the turn and a mood-based category; arms `wait_sfx_due = now + delay` only
when the draw passes `wait_sfx_chance`, else clears it. Returns
`(wait_sfx_due, wait_sfx_turn, wait_sfx_category)`. -/
def schedule_wait_sfx (turn : ℤ) (profile : DynamicProfile) (i : TickInput) :
    Option ℚ × Option ℤ × String :=
  let cat := choose_wait_sfx_category profile.mood i.catDraw
  if i.schedDraw < profile.wait_sfx_chance then
    (some (i.now + i.delay), some turn, cat)
  else
    (none, some turn, cat)

/-- The wait-SFX firing guard of `game_loop`: the timer is set, the game is
not over, the engine is not in the rematch window, nobody is speaking, the
snapshot turn equals `wait_sfx_turn`, and the due time has passed. -/
def fire_cond (st : LoopState) (i : TickInput) : Bool :=
  match st.wait_sfx_due with
  | none => false
  | some due =>
    !i.game_over && !st.rematch_mode && !i.is_speaking &&
      (st.wait_sfx_turn == some i.turn) && decide (due ≤ i.now)

/-- One iteration of the `game_loop` body (with a successful state fetch),
restricted to the `LoopState` fields: fire the due wait SFX and cancel the
timer; on a new turn, advance `last_turn_index`, cancel, reschedule when
midgame, and enter the rematch window on `game_over` (cancelling again);
after that, leave the rematch window when `game_over` is false again,
rescheduling for the fresh turn. The purely actuating parts of the body
(idle actions, scripted speeches and behaviors, midgame taunts, posture)
touch none of these fields and are omitted. Returns the new state and
whether the wait SFX fired. -/
def game_tick (st : LoopState) (i : TickInput) : LoopState × Bool :=
  let profile := compute_dynamic_profile i.lead
  let fired := fire_cond st i
  let st1 := if fired then
      { st with wait_sfx_due := none, wait_sfx_turn := none }
    else st
  let st2 :=
    if i.turn > st1.last_turn_index then
      let stA := { st1 with last_turn_index := i.turn,
                            wait_sfx_due := none, wait_sfx_turn := none }
      let stB :=
        if i.game_over = false ∧ stA.rematch_mode = false then
          let s := schedule_wait_sfx i.turn profile i
          { stA with wait_sfx_due := s.1, wait_sfx_turn := s.2.1,
                     wait_sfx_category := s.2.2 }
        else stA
      if i.game_over = true ∧ stB.rematch_mode = false then
        { stB with rematch_mode := true, wait_sfx_due := none,
                   wait_sfx_turn := none }
      else stB
    else st1
  let st3 :=
    if i.game_over = false ∧ st2.rematch_mode = true then
      let stC := { st2 with rematch_mode := false, wait_sfx_due := none,
                            wait_sfx_turn := none }
      if i.turn ≥ 0 then
        let s := schedule_wait_sfx i.turn profile i
        { stC with wait_sfx_due := s.1, wait_sfx_turn := s.2.1,
                   wait_sfx_category := s.2.2 }
      else stC
    else st2
  (st3, fired)

/-- One record per poll tick of a poll-loop run. -/
structure TickEntry where
  pre : LoopState
  input : TickInput
  fired : Bool
  post : LoopState
deriving DecidableEq

/-- Iterated `game_tick` over a list of tick inputs. -/
def game_run (st : LoopState) : List TickInput → List TickEntry
  | [] => []
  | i :: is =>
    let r := game_tick st i
    { pre := st, input := i, fired := r.2, post := r.1 } :: game_run r.1 is

/-- The state at the top of `game_loop` (module-load globals after the
initial `cancel_wait_sfx()`). -/
def init_loop_state : LoopState :=
  { last_turn_index := -1, rematch_mode := false, wait_sfx_due := none,
    wait_sfx_turn := none, wait_sfx_category := "WAIT" }

/-- Reachability invariant of the poll loop: a scheduled wait-SFX turn never
exceeds the last processed turn index. -/
def loop_invariant (st : LoopState) : Prop :=
  ∀ t, st.wait_sfx_turn = some t → t ≤ st.last_turn_index

theorem game_tick_fire (st : LoopState) (i : TickInput)
    (hI : loop_invariant st) :
    ((game_tick st i).2 = true →
      (∃ d, st.wait_sfx_due = some d ∧ d ≤ i.now) ∧
      i.game_over = false ∧ st.rematch_mode = false ∧ i.is_speaking = false ∧
      st.wait_sfx_turn = some i.turn ∧
      (game_tick st i).1.wait_sfx_due = none ∧
      (game_tick st i).1.wait_sfx_turn = none) ∧
    loop_invariant (game_tick st i).1 := by
  constructor
  · intro hf
    have hfc : fire_cond st i = true := hf
    cases hdue : st.wait_sfx_due with
    | none => rw [fire_cond, hdue] at hfc; exact absurd hfc (by simp)
    | some due =>
      rw [fire_cond, hdue] at hfc
      simp only [Bool.and_eq_true, Bool.not_eq_true', beq_iff_eq,
        decide_eq_true_eq] at hfc
      obtain ⟨⟨⟨⟨hgo, hrm⟩, hsp⟩, hturn⟩, hnow⟩ := hfc
      have hle : i.turn ≤ st.last_turn_index := hI i.turn hturn
      have hnt : ¬(i.turn > st.last_turn_index) := not_lt.mpr hle
      have hfc2 : fire_cond st i = true := by
        rw [fire_cond, hdue]
        simp [hgo, hrm, hsp, hturn, hnow]
      refine ⟨⟨due, rfl, hnow⟩, hgo, hrm, hsp, hturn, ?_, ?_⟩ <;>
        simp [game_tick, hfc2, hnt, hrm]
  · intro t ht
    revert ht
    simp only [game_tick, schedule_wait_sfx]
    split_ifs <;> simp_all [loop_invariant] <;> omega

theorem game_run_fire (st : LoopState) (hI : loop_invariant st)
    (ts : List TickInput) :
    ∀ e ∈ game_run st ts,
      e.fired = true →
        (∃ d, e.pre.wait_sfx_due = some d ∧ d ≤ e.input.now) ∧
        e.input.game_over = false ∧ e.pre.rematch_mode = false ∧
        e.input.is_speaking = false ∧
        e.pre.wait_sfx_turn = some e.input.turn ∧
        e.post.wait_sfx_due = none ∧ e.post.wait_sfx_turn = none := by
  induction ts generalizing st with
  | nil => intro e he; simp [game_run] at he
  | cons i is ih =>
    intro e he
    simp only [game_run, List.mem_cons] at he
    rcases he with rfl | he
    · exact (game_tick_fire st i hI).1
    · exact ih _ (game_tick_fire st i hI).2 e he

/-- C2: over every run of the poll loop from its initial state, the stall
(wait) sound fires at a tick only if the timer is set and due, the game is
not over, the engine is not in the rematch window, nobody is speaking, and
the timer's recorded turn equals the current snapshot's turn index (so it
never fires when they differ); and firing clears the timer. -/
theorem stall_timer_sound (ts : List TickInput) :
    ∀ e ∈ game_run init_loop_state ts,
      e.fired = true →
        (∃ d, e.pre.wait_sfx_due = some d ∧ d ≤ e.input.now) ∧
        e.input.game_over = false ∧ e.pre.rematch_mode = false ∧
        e.input.is_speaking = false ∧
        e.pre.wait_sfx_turn = some e.input.turn ∧
        e.post.wait_sfx_due = none ∧ e.post.wait_sfx_turn = none :=
  game_run_fire init_loop_state (by simp [loop_invariant, init_loop_state]) ts

/-- First witness tick: turn 0 arrives midgame at time 0 and the schedule
draw passes, arming the timer for turn 0 at time 5. -/
def c2_i1 : TickInput :=
  { turn := 0, game_over := false, lead := 0, is_speaking := false,
    now := 0, catDraw := 0, schedDraw := 0, delay := 5 }

/-- Second witness tick: still turn 0 at time 10, so the armed timer is
due. -/
def c2_i2 : TickInput :=
  { turn := 0, game_over := false, lead := 0, is_speaking := false,
    now := 10, catDraw := 0, schedDraw := 0, delay := 5 }

/-- The loop state after the first witness tick. -/
def c2_mid : LoopState :=
  { last_turn_index := 0, rematch_mode := false, wait_sfx_due := some 5,
    wait_sfx_turn := some 0, wait_sfx_category := "ANNOY" }

/-- The loop state after the second witness tick (timer fired and
cleared). -/
def c2_post : LoopState :=
  { last_turn_index := 0, rematch_mode := false, wait_sfx_due := none,
    wait_sfx_turn := none, wait_sfx_category := "ANNOY" }

/-- The firing entry of the witness run. -/
def c2_entry : TickEntry :=
  { pre := c2_mid, input := c2_i2, fired := true, post := c2_post }

theorem stall_timer_sound_witness :
    (∃ d, c2_entry.pre.wait_sfx_due = some d ∧ d ≤ c2_entry.input.now) ∧
    c2_entry.input.game_over = false ∧ c2_entry.pre.rematch_mode = false ∧
    c2_entry.input.is_speaking = false ∧
    c2_entry.pre.wait_sfx_turn = some c2_entry.input.turn ∧
    c2_entry.post.wait_sfx_due = none ∧ c2_entry.post.wait_sfx_turn = none := by
  have t1 : game_tick init_loop_state c2_i1 = (c2_mid, false) := by
    norm_num [game_tick, fire_cond, schedule_wait_sfx, choose_wait_sfx_category,
      compute_dynamic_profile, _clamp01, _clamp, _mood_from_lead,
      WAIT_SFX_CHANCE, MOVE_SPEAK_CHANCE, BEHAVIOR_CHANCE, SFX_CHANCE,
      max_def, min_def, init_loop_state, c2_i1, c2_mid] <;> decide
  have t2 : game_tick c2_mid c2_i2 = (c2_post, true) := by
    norm_num [game_tick, fire_cond, schedule_wait_sfx, choose_wait_sfx_category,
      compute_dynamic_profile, _clamp01, _clamp, _mood_from_lead,
      WAIT_SFX_CHANCE, MOVE_SPEAK_CHANCE, BEHAVIOR_CHANCE, SFX_CHANCE,
      max_def, min_def, c2_mid, c2_i2, c2_post] <;> decide
  have hrun : game_run init_loop_state [c2_i1, c2_i2] =
      [{ pre := init_loop_state, input := c2_i1, fired := false, post := c2_mid },
       c2_entry] := by
    simp [game_run, t1, t2, c2_entry]
  exact stall_timer_sound [c2_i1, c2_i2] c2_entry
    (by rw [hrun]; exact List.mem_cons_of_mem _ (List.mem_cons_self _ _)) rfl

end HAIRobot
